import Mathlib

/-!
Verification of the Social-Media-Usage-Analytics scoring core.

The JavaScript source is embedded shallowly:

* JS numbers are modelled as exact rationals (`ℚ`); the float literals
  `1.1`, `0.9`, `0.5`, `0.3`, `0.15`, `0.6`, `0.4`, `0.2` are the exact
  rationals with those decimal expansions.
* Calendar dates (day-granular `Date` values) are modelled as integer day
  indices (`ℤ`); the millisecond difference divided by one day between two
  such dates is exactly their integer difference.
* `Math.round` is `⌊x + 1/2⌋`; rounding to two decimals
  (`Math.round(x*100)/100`) is `round2`.
* JS `Map` iteration order (insertion order of first occurrence) is
  modelled by association lists updated in place (`upsert`, `pushGroup`).
* `Array.prototype.sort` (stable since ES2019) is a stable insertion sort
  performed left to right.
* An absent (`null`/`undefined`) input collection is modelled as `[]`,
  which the sources treat identically (`!logs || logs.length === 0`).
* JS `toLowerCase`/`toUpperCase` on the ASCII strings this code handles
  are per-character case maps.
-/

/-- JS `Math.round`: round half toward positive infinity. -/
def jsRound (q : ℚ) : ℤ := ⌊q + 1/2⌋

/-- JS `Math.round(x * 100) / 100`: round to two decimal places. -/
def round2 (q : ℚ) : ℚ := ((jsRound (q * 100) : ℚ)) / 100

/-- Insertion-order-preserving `Map` update used for the
`existing = map.get(k) || 0; map.set(k, existing + v)` idiom: an existing
key keeps its position and accumulates, a new key is appended. -/
def upsert {κ : Type} [DecidableEq κ] : List (κ × ℚ) → κ → ℚ → List (κ × ℚ)
  | [], k, v => [(k, v)]
  | (k', v') :: rest, k, v =>
      if k' = k then (k', v' + v) :: rest else (k', v') :: upsert rest k v

/-- A usage log record: `{ appName, minutesSpent, date }` with the date as
an integer day index. -/
structure UsageLog where
  appName : String
  minutesSpent : ℚ
  date : ℤ
deriving DecidableEq, Repr

/-- The `dateMap` of the analytics engine: group logs by calendar day,
summing minutes per day, in first-seen day order. -/
def dateMapOf (logs : List UsageLog) : List (ℤ × ℚ) :=
  logs.foldl (fun m log => upsert m log.date log.minutesSpent) []

/-- The `appMap`: group logs by app name, summing minutes, in first-seen
order. -/
def appMapOf (logs : List UsageLog) : List (String × ℚ) :=
  logs.foldl (fun m log => upsert m log.appName log.minutesSpent) []

/-- Stable insert for the `(a, b) => b.minutes - a.minutes` comparator:
descending by minutes, equal keys keep first-seen order. -/
def insertByMinutesDesc (x : String × ℚ) : List (String × ℚ) → List (String × ℚ)
  | [] => [x]
  | y :: rest =>
      if y.2 ≥ x.2 then y :: insertByMinutesDesc x rest else x :: y :: rest

/-- `Array.from(appMap.entries()).sort((a, b) => b.minutes - a.minutes)`. -/
def sortByMinutesDesc (l : List (String × ℚ)) : List (String × ℚ) :=
  l.foldl (fun acc x => insertByMinutesDesc x acc) []

/-- Weekly statistics record. -/
structure WeeklyStats where
  totalMinutes : ℚ
  averageDailyMinutes : ℚ
  daysActive : ℕ
  trend : String
  apps : List (String × ℚ)
deriving DecidableEq, Repr

/-- The trend computation of `calculateWeeklyStats` (lines 78-87): compare
the mean of the second half of the grouped daily totals against the mean
of the first half, with the `×1.1` / `×0.9` thresholds. -/
def computeTrend (dailyTotals : List ℚ) : String :=
  if dailyTotals.length ≥ 4 then
    let midpoint := dailyTotals.length / 2
    let firstHalf := (dailyTotals.take midpoint).foldl (· + ·) 0 / (midpoint : ℚ)
    let secondHalf :=
      (dailyTotals.drop midpoint).foldl (· + ·) 0 / ((dailyTotals.length - midpoint : ℕ) : ℚ)
    if secondHalf > firstHalf * (11/10) then "increasing"
    else if secondHalf < firstHalf * (9/10) then "decreasing"
    else "stable"
  else "stable"

/-- `calculateWeeklyStats` from the analytics engine. -/
def calculateWeeklyStats (logs : List UsageLog) : WeeklyStats :=
  if logs.isEmpty then
    { totalMinutes := 0, averageDailyMinutes := 0, daysActive := 0
      trend := "stable", apps := [] }
  else
    let dateMap := dateMapOf logs
    let dailyTotals := dateMap.map Prod.snd
    let totalMinutes := dailyTotals.foldl (· + ·) 0
    let averageDailyMinutes := totalMinutes / max 1 (dateMap.length : ℚ)
    let daysActive := dateMap.length
    let trend := computeTrend dailyTotals
    let apps := sortByMinutesDesc (appMapOf logs)
    { totalMinutes := round2 totalMinutes
      averageDailyMinutes := round2 averageDailyMinutes
      daysActive := daysActive, trend := trend, apps := apps }

/-- Risk score result record. -/
structure RiskResult where
  score : ℤ
  category : String
  level : String
deriving DecidableEq, Repr

/-- `calculateRiskScore(weeklyLogs, monthlyLogs)`: four additive factors
over the weekly logs, clamped to `[0,100]` after rounding. The
`monthlyLogs` parameter appears in the source signature but is never read
in the body. -/
def calculateRiskScore (weeklyLogs _monthlyLogs : List UsageLog) : RiskResult :=
  if weeklyLogs.isEmpty then
    { score := 0, category := "Low", level := "low" }
  else
    let weeklyStats := calculateWeeklyStats weeklyLogs
    let avgDaily := weeklyStats.averageDailyMinutes
    let f1 : ℚ :=
      if avgDaily ≥ 360 then 40
      else if avgDaily ≥ 240 then 30 + ((avgDaily - 240) / 120) * 5
      else if avgDaily ≥ 120 then 20 + ((avgDaily - 120) / 120) * 10
      else if avgDaily ≥ 60 then 10 + ((avgDaily - 60) / 60) * 10
      else (avgDaily / 60) * 10
    let peakMinutes := ((dateMapOf weeklyLogs).map Prod.snd).foldl max 0
    let f2 : ℚ :=
      if peakMinutes ≥ 360 then 20
      else if peakMinutes ≥ 240 then 15 + ((peakMinutes - 240) / 120) * 5
      else if peakMinutes ≥ 120 then 10 + ((peakMinutes - 120) / 120) * 5
      else (peakMinutes / 120) * 5
    let f3 : ℚ := ((weeklyStats.daysActive : ℚ) / 7) * 20
    let f4 : ℚ :=
      if weeklyStats.trend = "increasing" then 20
      else if weeklyStats.trend = "stable" then 10
      else 5
    let score := max 0 (min 100 (jsRound (f1 + f2 + f3 + f4)))
    let category := if score ≥ 70 then "High" else if score ≥ 40 then "Moderate" else "Low"
    let level := if score ≥ 70 then "high" else if score ≥ 40 then "moderate" else "low"
    { score := score, category := category, level := level }

/-- Stable insert by ascending date, for the honesty scorer's
`sort((a, b) => new Date(a.date) - new Date(b.date))`. -/
def insertByDateAsc (x : UsageLog) : List UsageLog → List UsageLog
  | [] => [x]
  | y :: rest => if y.date ≤ x.date then y :: insertByDateAsc x rest else x :: y :: rest

/-- Stable sort of entries by ascending date. -/
def sortByDateAsc (l : List UsageLog) : List UsageLog :=
  l.foldl (fun acc x => insertByDateAsc x acc) []

/-- Gap-penalty loop of `calculateDigitalHonestyScore` (lines 22-34): for
each consecutive pair of sorted entries whose day difference exceeds 7,
accumulate `min(30, (daysDiff - 7) * 5)`. -/
def gapPenalties : List UsageLog → ℚ
  | a :: b :: rest =>
      (if b.date - a.date > 7 then min 30 (((b.date - a.date - 7 : ℤ) : ℚ) * 5) else 0) +
        gapPenalties (b :: rest)
  | _ => 0

/-- Unrealistic-entry loop (lines 36-44): 10 points per record with more
than 960 logged minutes. -/
def unrealPenalties (l : List UsageLog) : ℚ :=
  (l.map fun e => if e.minutesSpent > 960 then (10 : ℚ) else 0).sum

/-- Spike loop for histories of at least 4 entries (lines 48-59): compare
each entry from index 3 on against the mean of the preceding 3 entries;
a positive mean exceeded more than threefold costs 5 points. -/
def spikePenalties4 : List ℚ → ℚ
  | a :: b :: c :: d :: rest =>
      (if (a + b + c) / 3 > 0 ∧ d > ((a + b + c) / 3) * 3 then (5 : ℚ) else 0) +
        spikePenalties4 (b :: c :: d :: rest)
  | _ => 0

/-- Spike loop for histories of 2 or 3 entries (lines 60-71): compare each
entry against its immediate predecessor; a positive predecessor exceeded
more than fivefold costs 5 points. -/
def spikePenaltiesShort : List ℚ → ℚ
  | a :: b :: rest =>
      (if a > 0 ∧ b > a * 5 then (5 : ℚ) else 0) + spikePenaltiesShort (b :: rest)
  | _ => 0

/-- `calculateDigitalHonestyScore(entries)`: 100 minus the gap,
unrealistic-entry and spike penalties over the date-sorted entries,
clamped to `[0,100]`; at most one entry scores 100 outright. -/
def calculateDigitalHonestyScore (entries : List UsageLog) : ℤ :=
  if entries.length ≤ 1 then 100
  else
    let sortedEntries := sortByDateAsc entries
    let score : ℚ :=
      100 - gapPenalties sortedEntries - unrealPenalties sortedEntries -
        (if sortedEntries.length ≥ 4 then
          spikePenalties4 (sortedEntries.map (·.minutesSpent))
         else if sortedEntries.length ≥ 2 then
          spikePenaltiesShort (sortedEntries.map (·.minutesSpent))
         else 0)
    max 0 (min 100 (jsRound score))

/-- Input signals of `analyzeRegretPatterns` (the destructured `data`
argument; the unused `entries` field is omitted). -/
structure RegretInput where
  dailyAvg : ℚ
  lateNightFrequency : ℚ
  intentDriftFrequency : ℚ
  riskScoreTrend : String
  honestyScore : ℚ
deriving DecidableEq, Repr

/-- The `regretTypes` accumulator object, fields in declaration order. -/
structure RegretTypes where
  attentionDrain : ℤ
  burnout : ℤ
  habitualScrolling : ℤ
deriving DecidableEq, Repr

/-- Result record of `analyzeRegretPatterns`. -/
structure RegretResult where
  regretScore : ℤ
  regretLevel : String
  regretTypes : RegretTypes
  dominantType : String
deriving DecidableEq, Repr

/-- `Object.keys(regretTypes).reduce((a, b) => regretTypes[a] > regretTypes[b] ? a : b)`:
fold keeping the accumulator only while its value is strictly greater. -/
def reduceDominant (a : String × ℤ) : List (String × ℤ) → String
  | [] => a.1
  | b :: rest => reduceDominant (if a.2 > b.2 then a else b) rest

/-- The dominant regret type: reduce over the keys of `regretTypes` in
declaration order. -/
def dominantTypeOf (t : RegretTypes) : String :=
  reduceDominant ("attentionDrain", t.attentionDrain)
    [("burnout", t.burnout), ("habitualScrolling", t.habitualScrolling)]

/-- The five additive factors of `analyzeRegretPatterns` (lines 21-77):
returns the raw (unclamped) `regretScore` together with the accumulators. -/
def regretFactors (data : RegretInput) : ℤ × RegretTypes :=
  let s0 : ℤ := 0
  let t0 : RegretTypes := ⟨0, 0, 0⟩
  let (s1, t1) :=
    if data.dailyAvg ≥ 240 then
      (s0 + 30, { t0 with attentionDrain := t0.attentionDrain + 20, burnout := t0.burnout + 10 })
    else if data.dailyAvg ≥ 180 then
      (s0 + 20, { t0 with attentionDrain := t0.attentionDrain + 15, burnout := t0.burnout + 5 })
    else if data.dailyAvg ≥ 120 then
      (s0 + 10, { t0 with attentionDrain := t0.attentionDrain + 10 })
    else (s0, t0)
  let (s2, t2) :=
    if data.lateNightFrequency ≥ 1/2 then
      (s1 + 25, { t1 with burnout := t1.burnout + 20, habitualScrolling := t1.habitualScrolling + 5 })
    else if data.lateNightFrequency ≥ 3/10 then
      (s1 + 15, { t1 with burnout := t1.burnout + 15 })
    else if data.lateNightFrequency ≥ 15/100 then
      (s1 + 8, { t1 with burnout := t1.burnout + 8 })
    else (s1, t1)
  let (s3, t3) :=
    if data.intentDriftFrequency ≥ 6/10 then
      (s2 + 25, { t2 with habitualScrolling := t2.habitualScrolling + 20, attentionDrain := t2.attentionDrain + 5 })
    else if data.intentDriftFrequency ≥ 4/10 then
      (s2 + 15, { t2 with habitualScrolling := t2.habitualScrolling + 15 })
    else if data.intentDriftFrequency ≥ 2/10 then
      (s2 + 8, { t2 with habitualScrolling := t2.habitualScrolling + 8 })
    else (s2, t2)
  let (s4, t4) :=
    if data.riskScoreTrend = "increasing" then
      (s3 + 10, { t3 with attentionDrain := t3.attentionDrain + 5, burnout := t3.burnout + 5 })
    else if data.riskScoreTrend = "stable_high" then
      (s3 + 5, { t3 with habitualScrolling := t3.habitualScrolling + 5 })
    else (s3, t3)
  let (s5, t5) :=
    if data.honestyScore < 60 then
      (s4 + 10, { t4 with habitualScrolling := t4.habitualScrolling + 5 })
    else if data.honestyScore < 80 then
      (s4 + 5, t4)
    else (s4, t4)
  (s5, t5)

/-- `analyzeRegretPatterns(data)`: factor accumulation, `[0,100]` clamp,
level thresholds (70, 40) and dominant-type reduction. -/
def analyzeRegretPatterns (data : RegretInput) : RegretResult :=
  let (rawScore, regretTypes) := regretFactors data
  let regretScore := min 100 (max 0 rawScore)
  let regretLevel :=
    if regretScore ≥ 70 then "high" else if regretScore ≥ 40 then "medium" else "low"
  { regretScore := regretScore, regretLevel := regretLevel
    regretTypes := regretTypes, dominantType := dominantTypeOf regretTypes }

/-- A usage entry as the Digital Mirror Mode sees it: `intention` (the JS
falsy empty string models an absent intention), tri-state `foundIt`
(`none` models `null`), minutes, calendar day, and the local hour of the
optional `createdAt` timestamp. -/
structure MirrorEntry where
  intention : String
  foundIt : Option Bool
  minutesSpent : ℚ
  date : ℤ
  createdAtHour : Option ℕ
deriving DecidableEq, Repr

/-- A mirror insight record. -/
structure MirrorInsight where
  intention : String
  pattern : String
  count : ℕ
  foundItRate : ℚ
  avgMinutes : ℤ
  lateNightCount : ℕ
  repeatedOpens : ℕ
  message : String
deriving DecidableEq, Repr

/-- JS `str.toLowerCase()` on the ASCII strings this code handles:
lower-case every character. -/
def toLowerCase (s : String) : String := String.mk (s.data.map Char.toLower)

/-- `capitalizeFirst` (mirror module, lines 114-116). -/
def capitalizeFirst (str : String) : String :=
  match str.data with
  | [] => ""
  | c :: rest => String.mk (c.toUpper :: rest)

/-- Insertion-order-preserving grouping `Map` update: append the entry to
its key's bucket, or append a fresh bucket for a new key. -/
def pushGroup {κ α : Type} [DecidableEq κ] : List (κ × List α) → κ → α → List (κ × List α)
  | [], k, x => [(k, [x])]
  | (k', xs) :: rest, k, x =>
      if k' = k then (k', xs ++ [x]) :: rest else (k', xs) :: pushGroup rest k x

/-- The late-night test on a local hour: `hour >= 22 || hour < 6`. -/
def lateNightHour (h : ℕ) : Bool := 22 ≤ h || h < 6

/-- `foundItCount / totalCount` for a group of entries. -/
def foundItRateOf (g : List MirrorEntry) : ℚ :=
  ((g.filter fun e => e.foundIt == some true).length : ℚ) / (g.length : ℚ)

/-- The body of the `intentionGroups.forEach` loop of
`analyzeMirrorPatterns` (lines 34-106) for one group: compute the group
statistics and classify with the first-match `if/else if/else if` chain,
yielding at most one insight. -/
def groupInsight (intention : String) (groupEntries : List MirrorEntry) : Option MirrorInsight :=
  let totalCount := groupEntries.length
  let notFoundCount := (groupEntries.filter fun e => e.foundIt == some false).length
  let foundItRate := foundItRateOf groupEntries
  let avgMinutes : ℚ := (groupEntries.map (·.minutesSpent)).sum / (totalCount : ℚ)
  let lateNightCount :=
    (groupEntries.filter fun e =>
      match e.createdAtHour with
      | some h => lateNightHour h
      | none => false).length
  let sameDayEntries := groupEntries.foldl (fun m e => pushGroup m e.date e) []
  let repeatedOpens := (sameDayEntries.filter fun dayEntries => dayEntries.2.length > 1).length
  let intentionText := capitalizeFirst intention
  if foundItRate < 1/2 ∧ totalCount ≥ 3 then
    some { intention := intentionText, pattern := "not_found", count := totalCount
           foundItRate := foundItRate, avgMinutes := jsRound avgMinutes
           lateNightCount := lateNightCount, repeatedOpens := repeatedOpens
           message := "You opened apps to " ++ toLowerCase intentionText ++
             ". You didn't find it " ++ toString notFoundCount ++ " out of " ++
             toString totalCount ++ " times. This pattern occurred " ++
             toString totalCount ++ " times." }
  else if avgMinutes > 60 ∧ foundItRate < 7/10 then
    some { intention := intentionText, pattern := "long_session_not_found", count := totalCount
           foundItRate := foundItRate, avgMinutes := jsRound avgMinutes
           lateNightCount := lateNightCount, repeatedOpens := repeatedOpens
           message := "You opened apps to " ++ toLowerCase intentionText ++
             ". You spent an average of " ++ toString (jsRound avgMinutes) ++
             " minutes but only found what you were looking for " ++
             toString (jsRound (foundItRate * 100)) ++ "% of the time." }
  else if lateNightCount > 0 ∧ (lateNightCount : ℚ) / (totalCount : ℚ) > 4/10 then
    some { intention := intentionText, pattern := "late_night", count := totalCount
           foundItRate := foundItRate, avgMinutes := jsRound avgMinutes
           lateNightCount := lateNightCount, repeatedOpens := repeatedOpens
           message := "You opened apps to " ++ toLowerCase intentionText ++ " " ++
             toString lateNightCount ++ " times late at night. You closed them feeling " ++
             (if foundItRate < 1/2 then "more tired" else "unsatisfied") ++
             ". This pattern occurred " ++ toString totalCount ++ " times this week." }
  else none

/-- Stable insert for the final `insights.sort((a, b) => b.count - a.count)`. -/
def insertByCountDesc (x : MirrorInsight) : List MirrorInsight → List MirrorInsight
  | [] => [x]
  | y :: rest => if y.count ≥ x.count then y :: insertByCountDesc x rest else x :: y :: rest

/-- Stable sort of insights by descending `count`. -/
def sortByCountDesc (l : List MirrorInsight) : List MirrorInsight :=
  l.foldl (fun acc x => insertByCountDesc x acc) []

/-- `analyzeMirrorPatterns(entries)`: filter to entries carrying both an
intention and a non-null `foundIt`, group by lower-cased intention,
classify each group, sort insights by descending count. -/
def analyzeMirrorPatterns (entries : List MirrorEntry) : List MirrorInsight :=
  if entries.isEmpty then []
  else
    let entriesWithIntention := entries.filter fun e => (e.intention != "") && e.foundIt.isSome
    if entriesWithIntention.isEmpty then []
    else
      let intentionGroups :=
        entriesWithIntention.foldl (fun m e => pushGroup m (toLowerCase e.intention) e) []
      let insights := intentionGroups.filterMap fun g => groupInsight g.1 g.2
      sortByCountDesc insights

/-- The trend rule as the specification words it: only computed for at
least 4 distinct days; split at `midpoint = floor(n/2)`; `increasing` iff
`mean(secondHalf) > mean(firstHalf) × 1.1`, `decreasing` iff
`mean(secondHalf) < mean(firstHalf) × 0.9`, else `stable`. -/
def trendSpec (dailyTotals : List ℚ) : String :=
  if dailyTotals.length < 4 then "stable"
  else
    let midpoint := dailyTotals.length / 2
    let meanFirst := (dailyTotals.take midpoint).sum / (midpoint : ℚ)
    let meanSecond := (dailyTotals.drop midpoint).sum / ((dailyTotals.length - midpoint : ℕ) : ℚ)
    if meanSecond > meanFirst * (11/10) then "increasing"
    else if meanSecond < meanFirst * (9/10) then "decreasing"
    else "stable"

/-- Scenario: seven distinct consecutive days, 60 minutes per day, a
single app. -/
def sevenDayLogs : List UsageLog :=
  [⟨"App", 60, 0⟩, ⟨"App", 60, 1⟩, ⟨"App", 60, 2⟩, ⟨"App", 60, 3⟩,
   ⟨"App", 60, 4⟩, ⟨"App", 60, 5⟩, ⟨"App", 60, 6⟩]

/-- Scenario: single-app records on day 0, day 10 and day 11, 100 minutes
each. -/
def gapScenarioLogs : List UsageLog :=
  [⟨"A", 100, 0⟩, ⟨"A", 100, 10⟩, ⟨"A", 100, 11⟩]

/-- Scenario: two separate 20-day gaps (days 0, 20, 40), 10 minutes each. -/
def twoGapLogs : List UsageLog :=
  [⟨"A", 10, 0⟩, ⟨"A", 10, 20⟩, ⟨"A", 10, 40⟩]

/-- Scenario: two consecutive days at exactly 960 minutes. -/
def pair960Logs : List UsageLog :=
  [⟨"A", 960, 0⟩, ⟨"A", 960, 1⟩]

/-- Scenario: two consecutive days at 960.01 minutes. -/
def pair96001Logs : List UsageLog :=
  [⟨"A", 96001/100, 0⟩, ⟨"A", 96001/100, 1⟩]

/-- Scenario: five consecutive days at 961 minutes (five unrealistic
records, more than the documented `-40` aggregate would allow). -/
def five961Logs : List UsageLog :=
  [⟨"A", 961, 0⟩, ⟨"A", 961, 1⟩, ⟨"A", 961, 2⟩, ⟨"A", 961, 3⟩, ⟨"A", 961, 4⟩]

/-- Scenario: three entries with intention `"relax"`, all `foundIt = false`,
10 minutes each on days 0, 1, 2, no `createdAt`. -/
def mirrorRelaxEntries : List MirrorEntry :=
  [⟨"relax", some false, 10, 0, none⟩, ⟨"relax", some false, 10, 1, none⟩,
   ⟨"relax", some false, 10, 2, none⟩]

/-- Regret input with every factor below its lowest tier: all accumulators
stay 0. -/
def quietRegretInput : RegretInput := ⟨0, 0, 0, "stable", 100⟩

/-- Rewrite helper: `"stable" ≠ "increasing"`. -/
theorem stable_ne_increasing : (("stable" : String) = "increasing") = False := by
  decide

/-- Rewrite helper: `"stable" = "stable"` holds. -/
theorem stable_eq_stable : (("stable" : String) = "stable") = True := by
  decide

/-- Rewrite helper: `"stable" ≠ "stable_high"`. -/
theorem stable_ne_stable_high : (("stable" : String) = "stable_high") = False := by
  decide

/-- Rewrite helper: lowering `"relax"` is the identity. -/
theorem toLowerCase_relax : toLowerCase "relax" = "relax" := by decide

/-- Rewrite helper: capitalizing `"relax"` gives `"Relax"`. -/
theorem capitalizeFirst_relax : capitalizeFirst "relax" = "Relax" := by decide

/-- Rewrite helper: lowering `"Relax"` gives `"relax"`. -/
theorem toLowerCase_capRelax : toLowerCase "Relax" = "relax" := by decide

/-- Rewrite helper: rendering the count 3. -/
theorem toString_three : toString (3 : ℕ) = "3" := by decide

/-- The JS key reduce in closed form: the strict maximum wins, and ties
for the maximum go to the latest-declared key. -/
theorem dominantTypeOf_closed (t : RegretTypes) :
    dominantTypeOf t =
      if t.attentionDrain > t.burnout ∧ t.attentionDrain > t.habitualScrolling then
        "attentionDrain"
      else if t.burnout > t.habitualScrolling then "burnout"
      else "habitualScrolling" := by
  rcases t with ⟨a, b, h⟩
  simp only [dominantTypeOf, reduceDominant]
  by_cases hab : a > b <;> by_cases hh : b > h <;> by_cases hah : a > h <;>
    simp [hab, hh, hah]
  all_goals omega

/-- C1: for every input, the risk score, the digital honesty score and the
regret score are integers clamped to the interval `[0,100]`. -/
theorem claim_C1_scores_clamped :
    (∀ w m : List UsageLog,
      0 ≤ (calculateRiskScore w m).score ∧ (calculateRiskScore w m).score ≤ 100) ∧
    (∀ entries : List UsageLog,
      0 ≤ calculateDigitalHonestyScore entries ∧ calculateDigitalHonestyScore entries ≤ 100) ∧
    (∀ d : RegretInput,
      0 ≤ (analyzeRegretPatterns d).regretScore ∧ (analyzeRegretPatterns d).regretScore ≤ 100) := by
  refine ⟨fun w m => ?_, fun entries => ?_, fun d => ?_⟩
  · by_cases h : w.isEmpty
    · simp only [calculateRiskScore, if_pos h]
      norm_num
    · simp only [calculateRiskScore, if_neg h]
      exact ⟨le_max_left 0 _, max_le (by norm_num) (min_le_left 100 _)⟩
  · by_cases h : entries.length ≤ 1
    · simp only [calculateDigitalHonestyScore, if_pos h]
      norm_num
    · simp only [calculateDigitalHonestyScore, if_neg h]
      exact ⟨le_max_left 0 _, max_le (by norm_num) (min_le_left 100 _)⟩
  · rcases hreg : regretFactors d with ⟨s, t⟩
    simp only [analyzeRegretPatterns, hreg]
    exact ⟨le_min (by norm_num) (le_max_left 0 s), min_le_left 100 (max 0 s)⟩

/-- C2 counterexample: with every factor below threshold the three
accumulators are all 0 (a three-way tie), yet the dominant type is
`habitualScrolling`, not `attentionDrain` as the claim's first-declared
tie-break would demand. -/
theorem claim_C2_counterexample :
    (analyzeRegretPatterns quietRegretInput).regretTypes = ⟨0, 0, 0⟩ ∧
    (analyzeRegretPatterns quietRegretInput).dominantType = "habitualScrolling" ∧
    (analyzeRegretPatterns quietRegretInput).dominantType ≠ "attentionDrain" := by
  have h : analyzeRegretPatterns quietRegretInput =
      ⟨0, "low", ⟨0, 0, 0⟩, "habitualScrolling"⟩ := by
    norm_num [quietRegretInput, analyzeRegretPatterns, regretFactors,
      dominantTypeOf, reduceDominant, stable_ne_increasing, stable_ne_stable_high]
  refine ⟨by rw [h], by rw [h], by rw [h]; decide⟩

/-- C2 (amended): the dominant type is the accumulator with the strictly
greatest value, with ties for the maximum broken toward the
last-declared key (`habitualScrolling` over `burnout` over
`attentionDrain`). -/
theorem claim_C2_dominant_type (d : RegretInput) :
    (analyzeRegretPatterns d).dominantType =
      if (analyzeRegretPatterns d).regretTypes.attentionDrain >
           (analyzeRegretPatterns d).regretTypes.burnout ∧
         (analyzeRegretPatterns d).regretTypes.attentionDrain >
           (analyzeRegretPatterns d).regretTypes.habitualScrolling then
        "attentionDrain"
      else if (analyzeRegretPatterns d).regretTypes.burnout >
          (analyzeRegretPatterns d).regretTypes.habitualScrolling then "burnout"
      else "habitualScrolling" := by
  rcases hreg : regretFactors d with ⟨s, t⟩
  simp only [analyzeRegretPatterns, hreg]
  exact dominantTypeOf_closed t

/-- C3: an empty weekly record set short-circuits `calculateRiskScore` to
`{score: 0, category: 'Low', level: 'low'}`, whatever the monthly set. -/
theorem claim_C3_empty_weekly (m : List UsageLog) :
    calculateRiskScore [] m = ⟨0, "Low", "low"⟩ := rfl

/-- C4: the honesty gap penalty is the per-consecutive-pair sum of
`min(30, (gap-7)*5)` with no cap across gaps; the day 0/10/11 scenario
scores exactly 85, and two separate 20-day gaps lose 30 twice (score 40). -/
theorem claim_C4_gap_penalty :
    (∀ l : List UsageLog,
      gapPenalties l =
        (List.zipWith
          (fun a b : UsageLog =>
            if 7 < b.date - a.date then min 30 (((b.date - a.date - 7 : ℤ) : ℚ) * 5) else 0)
          l l.tail).sum) ∧
    calculateDigitalHonestyScore gapScenarioLogs = 85 ∧
    calculateDigitalHonestyScore twoGapLogs = 40 := by
  refine ⟨fun l => ?_, ?_, ?_⟩
  · induction l with
    | nil => rfl
    | cons a rest ih =>
        cases rest with
        | nil => rfl
        | cons b rest2 => simp [gapPenalties, List.zipWith_cons_cons, ih]
  · simp [calculateDigitalHonestyScore, gapScenarioLogs, sortByDateAsc, insertByDateAsc,
      gapPenalties, unrealPenalties, spikePenalties4, spikePenaltiesShort, jsRound]
    norm_num
  · simp [calculateDigitalHonestyScore, twoGapLogs, sortByDateAsc, insertByDateAsc,
      gapPenalties, unrealPenalties, spikePenalties4, spikePenaltiesShort, jsRound]
    norm_num

/-- C5: seven consecutive days of 60 minutes on a single app give weekly
average 60, 7 active days, a stable trend, and risk score 43 rated
Moderate (42.5 rounded up). -/
theorem claim_C5_seven_day_scenario :
    (calculateWeeklyStats sevenDayLogs).averageDailyMinutes = 60 ∧
    (calculateWeeklyStats sevenDayLogs).daysActive = 7 ∧
    (calculateWeeklyStats sevenDayLogs).trend = "stable" ∧
    calculateRiskScore sevenDayLogs [] = ⟨43, "Moderate", "moderate"⟩ := by
  have hw : calculateWeeklyStats sevenDayLogs =
      { totalMinutes := 420, averageDailyMinutes := 60, daysActive := 7
        trend := "stable", apps := [("App", 420)] } := by
    norm_num [sevenDayLogs, calculateWeeklyStats, dateMapOf, appMapOf, upsert,
      computeTrend, round2, jsRound, sortByMinutesDesc, insertByMinutesDesc,
      WeeklyStats.mk.injEq]
  refine ⟨by rw [hw], by rw [hw], by rw [hw], ?_⟩
  simp [sevenDayLogs, calculateRiskScore, calculateWeeklyStats, dateMapOf,
    appMapOf, upsert, computeTrend, round2, jsRound, sortByMinutesDesc,
    insertByMinutesDesc, RiskResult.mk.injEq]
  norm_num
  simp only [stable_ne_increasing, stable_eq_stable, if_false, if_true]
  norm_num

/-- C6: the weekly trend is the spec's rule — default `stable` below 4
distinct days, otherwise the `×1.1`/`×0.9` half-mean comparison at
`midpoint = floor(n/2)` — and the three spec sequences classify as
increasing, decreasing and stable. -/
theorem claim_C6_trend_rule :
    (∀ l : List ℚ, computeTrend l = trendSpec l) ∧
    (∀ logs : List UsageLog,
      (calculateWeeklyStats logs).trend = computeTrend ((dateMapOf logs).map Prod.snd)) ∧
    computeTrend [10, 10, 50, 50] = "increasing" ∧
    computeTrend [50, 50, 10, 10] = "decreasing" ∧
    computeTrend [30, 30, 30, 30] = "stable" := by
  refine ⟨fun l => ?_, fun logs => ?_, ?_, ?_, ?_⟩
  · unfold computeTrend trendSpec
    by_cases h : l.length ≥ 4
    · rw [if_pos h, if_neg (show ¬(l.length < 4) by omega)]
      simp only [List.sum_eq_foldl]
    · rw [if_neg h, if_pos (show l.length < 4 by omega)]
  · cases logs with
    | nil => rfl
    | cons a rest => simp [calculateWeeklyStats]
  · simp [computeTrend]
    norm_num
  · simp [computeTrend]
    norm_num
  · simp [computeTrend]
    norm_num

/-- C7: a group with `foundItRate < 0.5` and at least 3 entries is
classified `not_found` by the first-match chain (one insight, later rules
skipped), and the three-`"relax"`-entries scenario yields exactly that one
insight with count 3 and rate 0. -/
theorem claim_C7_not_found_priority :
    (∀ (i : String) (g : List MirrorEntry),
      foundItRateOf g < 1/2 → 3 ≤ g.length →
      ∃ ins, groupInsight i g = some ins ∧ ins.pattern = "not_found" ∧
        ins.count = g.length ∧ ins.foundItRate = foundItRateOf g) ∧
    analyzeMirrorPatterns mirrorRelaxEntries =
      [{ intention := "Relax", pattern := "not_found", count := 3, foundItRate := 0
         avgMinutes := 10, lateNightCount := 0, repeatedOpens := 0
         message := "You opened apps to relax. You didn't find it 3 out of 3 times. This pattern occurred 3 times." }] := by
  constructor
  · intro i g h1 h2
    simp only [groupInsight]
    rw [if_pos ⟨h1, h2⟩]
    exact ⟨_, rfl, rfl, rfl, rfl⟩
  · simp [analyzeMirrorPatterns, mirrorRelaxEntries, pushGroup, groupInsight,
      foundItRateOf, sortByCountDesc, insertByCountDesc, toLowerCase_relax,
      capitalizeFirst_relax, toLowerCase_capRelax, toString_three, jsRound,
      MirrorInsight.mk.injEq]
    norm_num

/-- C7 witness: the universal part applied to the `"relax"` group. -/
theorem claim_C7_witness :
    ∃ ins, groupInsight "relax" mirrorRelaxEntries = some ins ∧
      ins.pattern = "not_found" ∧ ins.count = mirrorRelaxEntries.length ∧
      ins.foundItRate = foundItRateOf mirrorRelaxEntries :=
  claim_C7_not_found_priority.1 "relax" mirrorRelaxEntries
    (by norm_num [foundItRateOf, mirrorRelaxEntries])
    (by norm_num [mirrorRelaxEntries])

/-- C8: the unrealistic-entry penalty is 10 per record strictly above 960
minutes with no cap (it equals `10 × count`); a 960-minute pair keeps
score 100, a 960.01-minute pair drops to 80, and five 961-minute records
lose 50 — beyond the documented 40-point cap. -/
theorem claim_C8_unrealistic_penalty :
    (∀ l : List UsageLog,
      unrealPenalties l =
        10 * ((l.countP fun e => decide ((960 : ℚ) < e.minutesSpent)) : ℚ)) ∧
    calculateDigitalHonestyScore pair960Logs = 100 ∧
    calculateDigitalHonestyScore pair96001Logs = 80 ∧
    calculateDigitalHonestyScore five961Logs = 50 := by
  refine ⟨fun l => ?_, ?_, ?_, ?_⟩
  · induction l with
    | nil => simp [unrealPenalties]
    | cons a rest ih =>
        by_cases hqa : (960 : ℚ) < a.minutesSpent
        · simp [unrealPenalties, List.countP_cons, hqa] at ih ⊢
          rw [ih]
          ring
        · simp [unrealPenalties, List.countP_cons, hqa] at ih ⊢
          exact ih
  · simp [calculateDigitalHonestyScore, pair960Logs, sortByDateAsc, insertByDateAsc,
      gapPenalties, unrealPenalties, spikePenalties4, spikePenaltiesShort, jsRound]
    norm_num
  · simp [calculateDigitalHonestyScore, pair96001Logs, sortByDateAsc, insertByDateAsc,
      gapPenalties, unrealPenalties, spikePenalties4, spikePenaltiesShort, jsRound]
    norm_num
  · simp [calculateDigitalHonestyScore, five961Logs, sortByDateAsc, insertByDateAsc,
      gapPenalties, unrealPenalties, spikePenalties4, spikePenaltiesShort, jsRound]
    norm_num

/-- C9: `calculateRiskScore` never reads its monthly argument — the result
is identical for any two monthly record sets. -/
theorem claim_C9_monthly_unused (w m1 m2 : List UsageLog) :
    calculateRiskScore w m1 = calculateRiskScore w m2 := rfl

/-- C10: a spike penalty requires a strictly positive baseline — a window
whose preceding mean (or predecessor, for short histories) is not positive
contributes nothing, and with three 0-minute days any fourth-day value of
at most 960 minutes keeps the honesty score at 100. -/
theorem claim_C10_spike_needs_positive_baseline :
    (∀ (a b c d : ℚ) (rest : List ℚ), ¬((a + b + c) / 3 > 0) →
      spikePenalties4 (a :: b :: c :: d :: rest) = spikePenalties4 (b :: c :: d :: rest)) ∧
    (∀ (a b : ℚ) (rest : List ℚ), ¬(a > 0) →
      spikePenaltiesShort (a :: b :: rest) = spikePenaltiesShort (b :: rest)) ∧
    (∀ x : ℚ, x ≤ 960 →
      calculateDigitalHonestyScore
        [⟨"A", 0, 0⟩, ⟨"A", 0, 1⟩, ⟨"A", 0, 2⟩, ⟨"A", x, 3⟩] = 100) := by
  refine ⟨fun a b c d rest h => ?_, fun a b rest h => ?_, fun x hx => ?_⟩
  · simp [spikePenalties4, h]
  · simp [spikePenaltiesShort, h]
  · have hnot : ¬((960 : ℚ) < x) := not_lt.mpr hx
    simp [calculateDigitalHonestyScore, sortByDateAsc, insertByDateAsc,
      gapPenalties, unrealPenalties, spikePenalties4, spikePenaltiesShort,
      jsRound, hnot]
    norm_num

/-- C10 witness: the three parts at concrete inputs (two zeroed baselines
and a 500-minute fourth day). -/
theorem claim_C10_witness :
    spikePenalties4 [0, 0, 0, 5000] = spikePenalties4 [0, 0, 5000] ∧
    spikePenaltiesShort [0, 5000] = spikePenaltiesShort [5000] ∧
    calculateDigitalHonestyScore
      [⟨"A", 0, 0⟩, ⟨"A", 0, 1⟩, ⟨"A", 0, 2⟩, ⟨"A", 500, 3⟩] = 100 :=
  ⟨claim_C10_spike_needs_positive_baseline.1 0 0 0 5000 [] (by norm_num),
   claim_C10_spike_needs_positive_baseline.2.1 0 5000 [] (by norm_num),
   claim_C10_spike_needs_positive_baseline.2.2 500 (by norm_num)⟩
